import Mathlib

/-!
Shallow embedding of `roicalculator.py` (a single-file Bayut ROI
calculator).  The embedding covers the rent-extraction and normalization
pipeline: JSON-like payload values, the amount/date parsers, record
extraction, contract-status classification, unit matching, annual-rent
extraction, the per-transaction filter loop of `get_bayut_rent`, its
aggregation and fallback policy, and the module-level ROI guard.

Python floats are modelled as exact rationals (all amounts exercised by
the specification are exactly representable); Python dicts are modelled
as association lists in insertion order; Python sets of small integers
are modelled as duplicate-free lists (only membership and emptiness are
observed).  Recursions over nested values use an explicit structural
fuel argument (always called with enough fuel) so that every definition
reduces inside the kernel.
-/

attribute [local semireducible] Rat.mul Rat.add Rat.sub Rat.inv Rat.ofScientific

/-- Python values as decoded from a JSON payload (`None`, `bool`, `int`,
`float`, `str`, `list`, `dict`).  `bool` is kept separate because the code
uses `isinstance(value, bool)` before `isinstance(value, (int, float))`;
where Python treats `bool` as an `int` the embedding does too. -/
inductive PyVal where
  | none
  | bool (b : Bool)
  | int (n : ℤ)
  | float (q : ℚ)
  | str (s : String)
  | list (items : List PyVal)
  | dict (entries : List (String × PyVal))

/-- `isinstance(v, dict)`. -/
def PyVal.isDict : PyVal → Bool
  | .dict _ => true
  | _ => false

/-- First-match association-list lookup: Python `d.get(k)` / `k in d`
(dict keys are unique in Python, so first match is the match). -/
def lookupKey {α : Type} : List (String × α) → String → Option α
  | [], _ => Option.none
  | (k, v) :: rest, key => if k = key then some v else lookupKey rest key

/-- Python `k in d`. -/
def hasKey {α : Type} (es : List (String × α)) (k : String) : Bool :=
  (lookupKey es k).isSome

/-- The entries of a dict value; non-dicts contribute no entries. -/
def PyVal.asDict : PyVal → List (String × PyVal)
  | .dict es => es
  | _ => []

/-- Python truthiness of a value (`if value:`). -/
def pyTruthy : PyVal → Bool
  | .none => false
  | .bool b => b
  | .int n => n ≠ 0
  | .float q => q ≠ 0
  | .str s => s ≠ ""
  | .list items => !items.isEmpty
  | .dict es => !es.isEmpty

/-- Python `a or b` (first truthy operand, else the last operand). -/
def pyOr (a b : PyVal) : PyVal := if pyTruthy a then a else b

/-- ASCII upper-casing of one character, as `str.upper` does (tabulated
over the 26 lowercase letters so facts about it are decidable per case). -/
def pyUpperChar (c : Char) : Char :=
  if c = 'a' then 'A' else if c = 'b' then 'B' else if c = 'c' then 'C'
  else if c = 'd' then 'D' else if c = 'e' then 'E' else if c = 'f' then 'F'
  else if c = 'g' then 'G' else if c = 'h' then 'H' else if c = 'i' then 'I'
  else if c = 'j' then 'J' else if c = 'k' then 'K' else if c = 'l' then 'L'
  else if c = 'm' then 'M' else if c = 'n' then 'N' else if c = 'o' then 'O'
  else if c = 'p' then 'P' else if c = 'q' then 'Q' else if c = 'r' then 'R'
  else if c = 's' then 'S' else if c = 't' then 'T' else if c = 'u' then 'U'
  else if c = 'v' then 'V' else if c = 'w' then 'W' else if c = 'x' then 'X'
  else if c = 'y' then 'Y' else if c = 'z' then 'Z' else c

/-- ASCII lower-casing of one character, as `str.lower` does. -/
def pyLowerChar (c : Char) : Char :=
  if c = 'A' then 'a' else if c = 'B' then 'b' else if c = 'C' then 'c'
  else if c = 'D' then 'd' else if c = 'E' then 'e' else if c = 'F' then 'f'
  else if c = 'G' then 'g' else if c = 'H' then 'h' else if c = 'I' then 'i'
  else if c = 'J' then 'j' else if c = 'K' then 'k' else if c = 'L' then 'l'
  else if c = 'M' then 'm' else if c = 'N' then 'n' else if c = 'O' then 'o'
  else if c = 'P' then 'p' else if c = 'Q' then 'q' else if c = 'R' then 'r'
  else if c = 'S' then 's' else if c = 'T' then 't' else if c = 'U' then 'u'
  else if c = 'V' then 'v' else if c = 'W' then 'w' else if c = 'X' then 'x'
  else if c = 'Y' then 'y' else if c = 'Z' then 'z' else c

/-- Whitespace stripped by Python `str.strip()` (ASCII subset). -/
def isPySpace (c : Char) : Bool :=
  c = ' ' || c = '\t' || c = '\n' || c = '\r' || c = '\x0b' || c = '\x0c'

/-- Strip leading and trailing whitespace from a char list. -/
def stripChars (l : List Char) : List Char :=
  ((l.dropWhile isPySpace).reverse.dropWhile isPySpace).reverse

def pyStrip (s : String) : String := ⟨stripChars s.data⟩

def pyLower (s : String) : String := ⟨s.data.map pyLowerChar⟩

def pyUpper (s : String) : String := ⟨s.data.map pyUpperChar⟩

/-- Does `pat` occur at the start of `l`? -/
def listStarts : List Char → List Char → Bool
  | [], _ => true
  | _ :: _, [] => false
  | a :: as, b :: bs => a = b && listStarts as bs

/-- Does `pat` occur somewhere in `l`?  (Python `pat in s`.) -/
def listHasSub (pat : List Char) : List Char → Bool
  | [] => listStarts pat []
  | c :: cs => listStarts pat (c :: cs) || listHasSub pat cs

/-- Python substring test `pat in s`. -/
def strContains (s pat : String) : Bool := listHasSub pat.data s.data

/-- Worker for `replaceWith`; the fuel is at least the list length, each
step consumes at least one character. -/
def replaceWithAux (pat repl : List Char) : ℕ → List Char → List Char
  | _, [] => []
  | 0, l => l
  | fuel + 1, c :: cs =>
    if !pat.isEmpty && listStarts pat (c :: cs) then
      repl ++ replaceWithAux pat repl fuel ((c :: cs).drop pat.length)
    else
      c :: replaceWithAux pat repl fuel cs

/-- Python `str.replace(pat, repl)`: replace each non-overlapping
occurrence left to right (all call sites use non-empty patterns). -/
def replaceWith (pat repl l : List Char) : List Char :=
  replaceWithAux pat repl l.length l

def pyReplace (s pat repl : String) : String :=
  ⟨replaceWith pat.data repl.data s.data⟩

/-- Numeric value of a digit run. -/
def natOfDigits (l : List Char) : ℕ :=
  l.foldl (fun acc c => 10 * acc + (c.toNat - '0'.toNat)) 0

/-- Worker for `digitRuns`: `cur` is the current digit run, reversed. -/
def digitRunsAux : List Char → List Char → List (List Char)
  | cur, [] => if cur.isEmpty then [] else [cur.reverse]
  | cur, c :: cs =>
    if c.isDigit then digitRunsAux (c :: cur) cs
    else if cur.isEmpty then digitRunsAux [] cs
    else cur.reverse :: digitRunsAux [] cs

/-- All maximal digit runs of a char list (`re.findall(r"\d+", text)`). -/
def digitRuns (l : List Char) : List (List Char) := digitRunsAux [] l

/-- First maximal digit run (`re.search(r"\d+", text)`). -/
def firstDigitRun (l : List Char) : Option (List Char) :=
  match digitRuns l with
  | [] => Option.none
  | r :: _ => some r

/-- Match `-?\d+(?:\.\d+)?` anchored at the head of `l`, returning the
matched value (`float(match.group())`, exact in ℚ). -/
def matchNumAt (l : List Char) : Option ℚ :=
  let neg : Bool := l.head? = some '-'
  let rest := if neg then l.tail else l
  let ds := rest.takeWhile Char.isDigit
  let rest2 := rest.dropWhile Char.isDigit
  if ds.isEmpty then Option.none
  else
    let ip : ℚ := (natOfDigits ds : ℚ)
    let q : ℚ :=
      match rest2 with
      | '.' :: r3 =>
        let fs := r3.takeWhile Char.isDigit
        if fs.isEmpty then ip
        else ip + (natOfDigits fs : ℚ) / ((10 : ℚ) ^ fs.length)
      | _ => ip
    some (if neg then -q else q)

/-- Leftmost match of `-?\d+(?:\.\d+)?` (`re.search`). -/
def searchNum : List Char → Option ℚ
  | [] => Option.none
  | c :: cs =>
    match matchNumAt (c :: cs) with
    | some q => some q
    | Option.none => searchNum cs

/-- Python `int(...)` truncation of a float toward zero. -/
def ratTrunc (q : ℚ) : ℤ := if 0 ≤ q then ⌊q⌋ else ⌈q⌉

/-- Join strings with `", "` (used by the `repr` rendering below). -/
def commaJoin : List String → String
  | [] => ""
  | [s] => s
  | s :: rest => s ++ ", " ++ commaJoin rest

/-- Decimal digits of `rem / d` (bounded depth).  Python's `repr` of a
float prints the shortest round-tripping decimal; this rendering is exact
for the dyadic fractions a float can hold up to 25 places.  No claim
observes this rendering. -/
def fracDigitsStr (d : ℕ) : ℕ → ℕ → String
  | 0, _ => ""
  | fuel + 1, rem =>
    if rem = 0 then ""
    else toString (10 * rem / d) ++ fracDigitsStr d fuel (10 * rem % d)

/-- Python `str()` of a float value. -/
def floatStr (q : ℚ) : String :=
  let sign := if q < 0 then "-" else ""
  let n := q.num.natAbs
  let d := q.den
  if n % d = 0 then sign ++ toString (n / d) ++ ".0"
  else sign ++ toString (n / d) ++ "." ++ fracDigitsStr d 25 (n % d)

mutual

/-- Worker for `pyStr`; the fuel strictly decreases on every recursive
call (so the group is structural on it and reduces in the kernel) and is
called with slack well beyond the value's size. -/
def pyStrAux : ℕ → PyVal → String
  | _, .none => "None"
  | _, .bool b => if b then "True" else "False"
  | _, .int n => toString n
  | _, .float q => floatStr q
  | _, .str s => s
  | 0, _ => ""
  | fuel + 1, .list items => "[" ++ commaJoin (pyReprListAux fuel items) ++ "]"
  | fuel + 1, .dict entries =>
    "\x7b" ++ commaJoin (pyReprEntriesAux fuel entries) ++ "\x7d"

/-- Worker for Python `repr(value)` (strings quoted inside containers). -/
def pyReprAux : ℕ → PyVal → String
  | _, .str s => "\x27" ++ s ++ "\x27"
  | 0, _ => ""
  | fuel + 1, v => pyStrAux fuel v

def pyReprListAux : ℕ → List PyVal → List String
  | _, [] => []
  | 0, _ :: _ => []
  | fuel + 1, v :: vs => pyReprAux fuel v :: pyReprListAux fuel vs

def pyReprEntriesAux : ℕ → List (String × PyVal) → List String
  | _, [] => []
  | 0, _ :: _ => []
  | fuel + 1, (k, v) :: rest =>
    ("\x27" ++ k ++ "\x27: " ++ pyReprAux fuel v) :: pyReprEntriesAux fuel rest

end

/-- Python `str(value)`.  The fuel bounds the container nesting depth the
renderer descends through; `10 ^ 9` exceeds any payload a decoded JSON
document can nest, and scalar values (the only ones whose rendering any
downstream logic observes) ignore the fuel entirely. -/
def pyStr (v : PyVal) : String := pyStrAux 1000000000 v

/-- The text tail of `parse_amount` (lines 111-129): an `"M"`/`"K"`
suffix sets a multiplier, the first `-?\d+(?:\.\d+)?` is the mantissa,
and empty text or a non-positive result yields `None`. -/
def amountFromText (l : List Char) : Option ℚ :=
  if l.isEmpty then Option.none
  else
    let mt : ℚ × List Char :=
      if l.getLast? = some 'M' then (1000000, l.dropLast)
      else if l.getLast? = some 'K' then (1000, l.dropLast)
      else (1, l)
    match searchNum mt.2 with
    | Option.none => Option.none
    | some q =>
      let amount := q * mt.1
      if amount ≤ 0 then Option.none else some amount

/-- `parse_amount` (roicalculator.py lines 104-129): `None` → `None`;
numeric values (including `bool`, a Python `int`) are returned as floats
directly; otherwise the text is upper-cased, stripped of `","`/`"AED"`/
`"DH"` and whitespace, then handed to `amountFromText`. -/
def parse_amount : PyVal → Option ℚ
  | .none => Option.none
  | .bool b => some (if b then 1 else 0)
  | .int n => some (n : ℚ)
  | .float q => some q
  | v =>
    amountFromText (stripChars (replaceWith "DH".data [] (replaceWith "AED".data []
      (replaceWith ",".data [] ((pyStr v).data.map pyUpperChar)))))

/-- A timezone-aware UTC point in time (`datetime` normalized to UTC),
as calendar fields.  All datetimes the pipeline compares are UTC-aware,
so comparison is via seconds since the Unix epoch. -/
structure DT where
  year : ℤ
  month : ℤ
  day : ℤ
  hour : ℤ
  minute : ℤ
  second : ℤ
deriving DecidableEq

/-- Days since 1970-01-01 of a Gregorian calendar date (standard
civil-from-days algorithm with floor division, as used by `datetime`'s
proleptic Gregorian calendar). -/
def days_from_civil (y m d : ℤ) : ℤ :=
  let y' := if m ≤ 2 then y - 1 else y
  let era := Int.fdiv y' 400
  let yoe := y' - era * 400
  let mp := (m + 9) % 12
  let doy := Int.fdiv (153 * mp + 2) 5 + d - 1
  let doe := yoe * 365 + Int.fdiv yoe 4 - Int.fdiv yoe 100 + doy
  era * 146097 + doe - 719468

/-- Gregorian calendar date of a day count since 1970-01-01 (inverse of
`days_from_civil`). -/
def civil_from_days (z0 : ℤ) : ℤ × ℤ × ℤ :=
  let z := z0 + 719468
  let era := Int.fdiv z 146097
  let doe := z - era * 146097
  let yoe := Int.fdiv (doe - Int.fdiv doe 1460 + Int.fdiv doe 36524 - Int.fdiv doe 146096) 365
  let y := yoe + era * 400
  let doy := doe - (365 * yoe + Int.fdiv yoe 4 - Int.fdiv yoe 100)
  let mp := Int.fdiv (5 * doy + 2) 153
  let d := doy - Int.fdiv (153 * mp + 2) 5 + 1
  let m := if mp < 10 then mp + 3 else mp - 9
  (if m ≤ 2 then y + 1 else y, m, d)

/-- Seconds since the Unix epoch of a UTC datetime. -/
def toEpochSecs (t : DT) : ℤ :=
  days_from_civil t.year t.month t.day * 86400 + t.hour * 3600 + t.minute * 60 + t.second

/-- UTC datetime of an epoch second count. -/
def fromEpochSecs (tsec : ℤ) : DT :=
  let days := Int.fdiv tsec 86400
  let rem := tsec - days * 86400
  let c := civil_from_days days
  ⟨c.1, c.2.1, c.2.2, Int.fdiv rem 3600, Int.fdiv (rem % 3600) 60, rem % 60⟩

/-- Python `<` on two UTC-aware datetimes. -/
def dtLt (a b : DT) : Bool := decide (toEpochSecs a < toEpochSecs b)

/-- `t + timedelta(days=n)` (also used with negative `n`). -/
def dtAddDays (t : DT) (n : ℤ) : DT := fromEpochSecs (toEpochSecs t + n * 86400)

/-- Is `y` a Gregorian leap year? -/
def isLeap (y : ℤ) : Bool := y % 4 = 0 && (y % 100 ≠ 0 || y % 400 = 0)

/-- Length of month `m` of year `y`. -/
def daysInMonth (y m : ℤ) : ℤ :=
  if m = 2 then (if isLeap y then 29 else 28)
  else if m = 4 ∨ m = 6 ∨ m = 9 ∨ m = 11 then 30
  else 31

/-- Is `(y, m, d)` a real calendar date (what the `datetime` constructor
accepts, month and day ranges included)? -/
def isValidDate (y m d : ℤ) : Bool :=
  decide (1 ≤ m ∧ m ≤ 12 ∧ 1 ≤ d ∧ d ≤ daysInMonth y m)

/-- `datetime.strptime(str(int(ts)), "%Y%m%d")` on an 8-digit integer:
the first four digits are the year, then month, then day; an impossible
calendar date raises `ValueError` (modelled as `none`). -/
def parseYYYYMMDD (n : ℤ) : Option DT :=
  let y := Int.fdiv n 10000
  let m := Int.fdiv n 100 % 100
  let d := n % 100
  if isValidDate y m d then some ⟨y, m, d, 0, 0, 0⟩ else Option.none

/-- `datetime.fromtimestamp(ts, tz=timezone.utc)` (sub-second part
dropped; no claim observes microseconds). -/
def fromTimestampUTC (ts : ℚ) : DT := fromEpochSecs ⌊ts⌋

/-- The numeric branch of `parse_datetime` (lines 139-151): an 8-digit
value is tried as `YYYYMMDD`; a value over `10^12` is scaled from
milliseconds to seconds; then a value over `10^9` is a Unix timestamp and
a value in `[1900, 2200]` is a bare year. -/
def parseDatetimeNum (ts : ℚ) : Option DT :=
  let dt0 := if 10000000 ≤ ts ∧ ts ≤ 99999999 then parseYYYYMMDD (ratTrunc ts) else Option.none
  let ts1 := if ts > 10 ^ 12 then ts / 1000 else ts
  if dt0.isNone ∧ ts1 > 10 ^ 9 then some (fromTimestampUTC ts1)
  else if dt0.isNone ∧ 1900 ≤ ts1 ∧ ts1 ≤ 2200 then some ⟨ratTrunc ts1, 1, 1, 0, 0, 0⟩
  else dt0

/-- The ten leading chars of an ISO string as `YYYY-MM-DD`. -/
def isoDate : List Char → Option (ℤ × ℤ × ℤ)
  | [y1, y2, y3, y4, '-', m1, m2, '-', d1, d2] =>
    if [y1, y2, y3, y4, m1, m2, d1, d2].all Char.isDigit then
      some ((natOfDigits [y1, y2, y3, y4] : ℤ), (natOfDigits [m1, m2] : ℤ),
        (natOfDigits [d1, d2] : ℤ))
    else Option.none
  | _ => Option.none

/-- The time-of-day part of an ISO string (`HH`, `HH:MM`, `HH:MM:SS`,
optionally with a fractional-second tail of 3 or 6 digits, which is
dropped). -/
def isoTime : List Char → Option (ℤ × ℤ × ℤ)
  | [] => Option.none
  | [h1, h2] =>
    if [h1, h2].all Char.isDigit then some ((natOfDigits [h1, h2] : ℤ), 0, 0) else Option.none
  | [h1, h2, ':', m1, m2] =>
    if [h1, h2, m1, m2].all Char.isDigit then
      some ((natOfDigits [h1, h2] : ℤ), (natOfDigits [m1, m2] : ℤ), 0)
    else Option.none
  | [h1, h2, ':', m1, m2, ':', s1, s2] =>
    if [h1, h2, m1, m2, s1, s2].all Char.isDigit then
      some ((natOfDigits [h1, h2] : ℤ), (natOfDigits [m1, m2] : ℤ), (natOfDigits [s1, s2] : ℤ))
    else Option.none
  | h1 :: h2 :: ':' :: m1 :: m2 :: ':' :: s1 :: s2 :: '.' :: frac =>
    if [h1, h2, m1, m2, s1, s2].all Char.isDigit ∧ frac.all Char.isDigit ∧
        (frac.length = 3 ∨ frac.length = 6) then
      some ((natOfDigits [h1, h2] : ℤ), (natOfDigits [m1, m2] : ℤ), (natOfDigits [s1, s2] : ℤ))
    else Option.none
  | _ => Option.none

/-- A `HH:MM` UTC-offset tail of an ISO string. -/
def isoOffset : List Char → Option ℤ
  | [h1, h2, ':', m1, m2] =>
    if [h1, h2, m1, m2].all Char.isDigit then
      some ((natOfDigits [h1, h2] : ℤ) * 60 + (natOfDigits [m1, m2] : ℤ))
    else Option.none
  | _ => Option.none

/-- Are time-of-day fields in range (out-of-range fields make the
`datetime` constructor raise, caught as a parse failure)? -/
def timeValid (h mi s : ℤ) : Bool :=
  decide (0 ≤ h ∧ h ≤ 23 ∧ 0 ≤ mi ∧ mi ≤ 59 ∧ 0 ≤ s ∧ s ≤ 59)

/-- `datetime.fromisoformat` (the pre-3.11 strict subset the code relies
on): `YYYY-MM-DD`, optionally any separator char and `HH[:MM[:SS[.fff]]]`,
optionally a `±HH:MM` offset.  Returns the naive fields plus the offset in
minutes (`none` when the string carried no timezone). -/
def pyFromIsoformat (s : String) : Option (DT × Option ℤ) :=
  let l := s.data
  if l.length < 10 then Option.none
  else
    match isoDate (l.take 10) with
    | Option.none => Option.none
    | some (y, m, d) =>
      if !isValidDate y m d then Option.none
      else if l.length = 10 then some (⟨y, m, d, 0, 0, 0⟩, Option.none)
      else
        let tstr := l.drop 11
        let timePart := tstr.takeWhile (fun c => !(c = '+' || c = '-'))
        let tzPart := tstr.dropWhile (fun c => !(c = '+' || c = '-'))
        match isoTime timePart with
        | Option.none => Option.none
        | some (h, mi, sec) =>
          if !timeValid h mi sec then Option.none
          else
            match tzPart with
            | [] => some (⟨y, m, d, h, mi, sec⟩, Option.none)
            | sign :: rest =>
              match isoOffset rest with
              | Option.none => Option.none
              | some mins =>
                some (⟨y, m, d, h, mi, sec⟩, some (if sign = '-' then -mins else mins))

/-- Split a char list on a separator character. -/
def splitOnChar (sep : Char) : List Char → List (List Char)
  | [] => [[]]
  | c :: cs =>
    let r := splitOnChar sep cs
    if c = sep then [] :: r
    else
      match r with
      | [] => [[c]]
      | g :: gs => (c :: g) :: gs

/-- A `strptime` numeric field: 1 to `maxLen` digits. -/
def fieldNum (maxLen : ℕ) (l : List Char) : Option ℤ :=
  if !l.isEmpty ∧ l.length ≤ maxLen ∧ l.all Char.isDigit then some ((natOfDigits l : ℕ) : ℤ)
  else Option.none

/-- Build a midnight datetime if the date is real. -/
def mkDate (y m d : ℤ) : Option DT :=
  if isValidDate y m d then some ⟨y, m, d, 0, 0, 0⟩ else Option.none

/-- `strptime` with format `%Y-%m-%d %H:%M:%S`. -/
def fmtYmdHMS (l : List Char) : Option DT :=
  match splitOnChar ' ' l with
  | [datePart, timePart] =>
    match splitOnChar '-' datePart, splitOnChar ':' timePart with
    | [ys, ms, ds], [hs, ins, ss] =>
      match fieldNum 4 ys, fieldNum 2 ms, fieldNum 2 ds,
          fieldNum 2 hs, fieldNum 2 ins, fieldNum 2 ss with
      | some y, some m, some d, some h, some mi, some s =>
        if isValidDate y m d ∧ timeValid h mi s then some ⟨y, m, d, h, mi, s⟩ else Option.none
      | _, _, _, _, _, _ => Option.none
    | _, _ => Option.none
  | _ => Option.none

/-- `strptime` with a year-month-day date-only format separated by `sep`. -/
def fmtYmd (sep : Char) (l : List Char) : Option DT :=
  match splitOnChar sep l with
  | [ys, ms, ds] =>
    match fieldNum 4 ys, fieldNum 2 ms, fieldNum 2 ds with
    | some y, some m, some d => mkDate y m d
    | _, _, _ => Option.none
  | _ => Option.none

/-- `strptime` with a day-month-year date-only format separated by `sep`. -/
def fmtDmy (sep : Char) (l : List Char) : Option DT :=
  match splitOnChar sep l with
  | [ds, ms, ys] =>
    match fieldNum 2 ds, fieldNum 2 ms, fieldNum 4 ys with
    | some d, some m, some y => mkDate y m d
    | _, _, _ => Option.none
  | _ => Option.none

/-- `strptime` with the `%m/%d/%Y` format. -/
def fmtMdy (sep : Char) (l : List Char) : Option DT :=
  match splitOnChar sep l with
  | [ms, ds, ys] =>
    match fieldNum 2 ms, fieldNum 2 ds, fieldNum 4 ys with
    | some m, some d, some y => mkDate y m d
    | _, _, _ => Option.none
  | _ => Option.none

/-- The fixed ordered list of fallback `strptime` formats (lines 159-171),
returning the first that matches. -/
def tryFormats (l : List Char) : Option DT :=
  match fmtYmdHMS l with
  | some dt => some dt
  | Option.none =>
    match fmtYmd '-' l with
    | some dt => some dt
    | Option.none =>
      match fmtDmy '/' l with
      | some dt => some dt
      | Option.none =>
        match fmtDmy '-' l with
        | some dt => some dt
        | Option.none =>
          match fmtMdy '/' l with
          | some dt => some dt
          | Option.none => fmtYmd '/' l

/-- `parse_datetime` (lines 132-177): `None` → `None`; numeric values go
through `parseDatetimeNum`; strings are stripped, tried with
`fromisoformat` (after replacing `"Z"` with `"+00:00"`), then with the
fallback format list; naive results are assumed UTC and aware results are
converted to UTC. -/
def parse_datetime : PyVal → Option DT
  | .none => Option.none
  | .bool b => parseDatetimeNum (if b then 1 else 0)
  | .int n => parseDatetimeNum (n : ℚ)
  | .float q => parseDatetimeNum q
  | v =>
    let text := pyStrip (pyStr v)
    if text.data.isEmpty then Option.none
    else
      match pyFromIsoformat (pyReplace text "Z" "+00:00") with
      | some (dt, Option.none) => some dt
      | some (dt, some mins) => some (fromEpochSecs (toEpochSecs dt - mins * 60))
      | Option.none => tryFormats text.data

/-- `STATUS_KEYS` (lines 36-42): status-bearing field names in priority
order. -/
def STATUS_KEYS : List String :=
  ["contract_renewal_status", "renewal_status", "is_renewal", "contract_type_en",
    "contract_type"]

/-- `UNIT_KEYS` (lines 44-53). -/
def UNIT_KEYS : List String :=
  ["property_sub_type_en", "property_type_en", "unit_type_en", "unit_type", "rooms_en",
    "rooms", "room_count", "bedrooms"]

/-- `RENT_KEYS` (lines 55-66). -/
def RENT_KEYS : List String :=
  ["annual_rent", "annual_rent_amount", "annual_amount", "yearly_rent", "yearly_amount",
    "rent_amount", "actual_worth", "contract_amount", "amount", "monthly_rent"]

/-- `parse_target_bedrooms` (lines 204-209): `"studio"` → 0, else the
first embedded integer, else no target. -/
def parse_target_bedrooms (unit_type : String) : Option ℤ :=
  let text := pyStrip (pyLower unit_type)
  if strContains text "studio" then some 0
  else
    match firstDigitRun text.data with
    | some r => some ((natOfDigits r : ℕ) : ℤ)
    | Option.none => Option.none

/-- The free-text classification of one status value (the tail of the
loop body of `classify_contract_status`, lines 239-249); `none` means the
loop continues with the next key. -/
def statusFromText (text : String) : Option String :=
  if text = "" then Option.none
  else if strContains text "renew" then some "renewal"
  else if strContains text "new" || strContains text "initial" || strContains text "first" then
    some "new"
  else if text = "0" ∨ text = "false" ∨ text = "no" ∨ text = "n" then some "new"
  else if text = "1" ∨ text = "true" ∨ text = "yes" ∨ text = "y" then some "renewal"
  else Option.none

/-- Classification of one present status value (loop body of
`classify_contract_status`, lines 227-249): `None` and unclassifiable
values make the loop continue (`none` here). -/
def classifyStatusValue : PyVal → Option String
  | .none => Option.none
  | .bool b => some (if b then "renewal" else "new")
  | .int n =>
    if n = 0 then some "new"
    else if n = 1 then some "renewal"
    else statusFromText (pyLower (pyStrip (pyStr (.int n))))
  | .float q =>
    if ratTrunc q = 0 then some "new"
    else if ratTrunc q = 1 then some "renewal"
    else statusFromText (pyLower (pyStrip (pyStr (.float q))))
  | v => statusFromText (pyLower (pyStrip (pyStr v)))

/-- The loop of `classify_contract_status` over `STATUS_KEYS`. -/
def classifyLoop (record : List (String × PyVal)) : List String → String
  | [] => "unknown"
  | k :: ks =>
    match lookupKey record k with
    | Option.none => classifyLoop record ks
    | some v =>
      match classifyStatusValue v with
      | some c => c
      | Option.none => classifyLoop record ks

/-- `classify_contract_status` (lines 222-251): the first present,
non-null, classifiable field of `STATUS_KEYS` decides; otherwise
`"unknown"`. -/
def classify_contract_status (record : List (String × PyVal)) : String :=
  classifyLoop record STATUS_KEYS

/-- Is `key` a unit-designating field name (line 270)? -/
def isUnitKeyName (key : String) : Bool :=
  UNIT_KEYS.contains key || strContains key "bed" || key = "room_count" || key = "rooms"

/-- Python `set.add` on a list model: insert if absent. -/
def insertBed (n : ℤ) (l : List ℤ) : List ℤ := if n ∈ l then l else l ++ [n]

/-- Loop body of `extract_record_bedrooms` (lines 269-296) for one field;
the accumulator is (bedroom set, saw-a-unit-field flag). -/
def bedroomsStep (acc : List ℤ × Bool) (key : String) (value : PyVal) : List ℤ × Bool :=
  if !isUnitKeyName key then acc
  else
    match value with
    | .none => acc
    | .bool b =>
      let c : ℤ := if b then 1 else 0
      (insertBed c acc.1, true)
    | .int n => if 0 ≤ n ∧ n ≤ 10 then (insertBed n acc.1, true) else acc
    | .float q =>
      let c := ratTrunc q
      if 0 ≤ c ∧ c ≤ 10 then (insertBed c acc.1, true) else acc
    | v =>
      let text := pyLower (pyStrip (pyStr v))
      if text = "" then acc
      else
        let st := if strContains text "studio" then (insertBed 0 acc.1, true) else acc
        let runs := digitRuns text.data
        let saw2 := st.2 || !runs.isEmpty
        let beds2 := runs.foldl
          (fun bs r =>
            let c : ℤ := ((natOfDigits r : ℕ) : ℤ)
            if 0 ≤ c ∧ c ≤ 10 then insertBed c bs else bs)
          st.1
        (beds2, saw2)

/-- `extract_record_bedrooms` (lines 265-298): candidate bedroom counts
found in unit-designating fields, plus whether any unit field was seen. -/
def extract_record_bedrooms (record : List (String × PyVal)) : List ℤ × Bool :=
  record.foldl (fun acc kv => bedroomsStep acc kv.1 kv.2) ([], false)

/-- `record_matches_target_unit` (lines 301-309): (matched?, had unit
info?). -/
def record_matches_target_unit (record : List (String × PyVal)) (target : Option ℤ) :
    Bool × Bool :=
  let r := extract_record_bedrooms record
  match target with
  | Option.none => (true, r.2)
  | some t =>
    if !r.2 then (false, false)
    else if r.1.isEmpty then (false, true)
    else (decide (t ∈ r.1), true)

/-- `parse_bed_value` (lines 366-379): bedroom count of one field value
(numeric in `[0, 10]`; text: `"studio"` → 0, else first embedded
integer). -/
def parse_bed_value : PyVal → Option ℤ
  | .none => Option.none
  | .bool b =>
    let c : ℤ := if b then 1 else 0
    some c
  | .int n => if 0 ≤ n ∧ n ≤ 10 then some n else Option.none
  | .float q =>
    let c := ratTrunc q
    if 0 ≤ c ∧ c ≤ 10 then some c else Option.none
  | v =>
    let text := pyLower (pyStrip (pyStr v))
    if text = "" then Option.none
    else if strContains text "studio" then some 0
    else
      match firstDigitRun text.data with
      | some r => some ((natOfDigits r : ℕ) : ℤ)
      | Option.none => Option.none

/-- The wrapper keys tried by `extract_records` (line 186). -/
def candidateKeys : List String :=
  ["data", "results", "result", "records", "items", "rows", "value"]

/-- Nested candidate-key scan one level deeper (lines 192-195). -/
def findNestedList : List String → List (String × PyVal) → Option (List PyVal)
  | [], _ => Option.none
  | k :: ks, es =>
    match lookupKey es k with
    | some (.list l) => some (l.filter PyVal.isDict)
    | _ => findNestedList ks es

/-- Candidate-key scan of `extract_records` (lines 187-195). -/
def findCandidate : List String → List (String × PyVal) → Option (List PyVal)
  | [], _ => Option.none
  | k :: ks, es =>
    match lookupKey es k with
    | some (.list l) => some (l.filter PyVal.isDict)
    | some (.dict es2) =>
      match findNestedList candidateKeys es2 with
      | some r => some r
      | Option.none => findCandidate ks es
    | _ => findCandidate ks es

/-- Last-resort scan of `extract_records` (lines 197-199): the first
non-empty list value whose FIRST element is a dict is returned as is,
without filtering its other elements. -/
def lastResort : List (String × PyVal) → List PyVal
  | [] => []
  | (_, .list (h :: t)) :: rest => if h.isDict then h :: t else lastResort rest
  | _ :: rest => lastResort rest

/-- `extract_records` (lines 180-201). -/
def extract_records : PyVal → List PyVal
  | .list items => items.filter PyVal.isDict
  | .dict es =>
    match findCandidate candidateKeys es with
    | some r => r
    | Option.none => lastResort es
  | _ => []

/-- Shared tail of both loops of `extract_annual_rent` (lines 332-338 and
346-352): parse, multiply by 12 for monthly fields, keep only plausible
annual rents; `none` means the loop continues. -/
def rentFromKV (key : String) (value : PyVal) : Option ℚ :=
  match parse_amount value with
  | Option.none => Option.none
  | some a0 =>
    let a := if strContains key "monthly" then a0 * 12 else a0
    if 10000 ≤ a ∧ a ≤ 5000000 then some a else Option.none

/-- First loop of `extract_annual_rent` over `RENT_KEYS` (lines 329-338). -/
def rentKeysLoop (record : List (String × PyVal)) : List String → Option ℚ
  | [] => Option.none
  | k :: ks =>
    match lookupKey record k with
    | Option.none => rentKeysLoop record ks
    | some v =>
      match rentFromKV k v with
      | some a => some a
      | Option.none => rentKeysLoop record ks

/-- Second loop of `extract_annual_rent` over all record fields
(lines 340-352). -/
def rentItemsLoop : List (String × PyVal) → Option ℚ
  | [] => Option.none
  | (k, v) :: rest =>
    if !(["rent", "amount", "value", "price"].any (fun t => strContains k t)) then
      rentItemsLoop rest
    else if ["sqft", "sqm", "service", "plot", "fee"].any (fun t => strContains k t) then
      rentItemsLoop rest
    else
      match rentFromKV k v with
      | some a => some a
      | Option.none => rentItemsLoop rest

/-- `extract_annual_rent` (lines 328-354). -/
def extract_annual_rent (record : List (String × PyVal)) : Option ℚ :=
  match rentKeysLoop record RENT_KEYS with
  | some a => some a
  | Option.none => rentItemsLoop record

/-- The `"hits"`/`"locations"` fallback row scan of `extract_location_ids`
(lines 385-390): the first list-valued key wins (even if it holds no
dicts). -/
def hitsLoop : List String → List (String × PyVal) → List PyVal
  | [], _ => []
  | k :: ks, es =>
    match lookupKey es k with
    | some (.list l) => l.filter PyVal.isDict
    | _ => hitsLoop ks es

/-- Row extraction of `extract_location_ids` (lines 384-390). -/
def locRowsOf (payload : PyVal) : List PyVal :=
  let rows := extract_records payload
  if rows.isEmpty then
    match payload with
    | .dict es => hitsLoop ["hits", "locations"] es
    | _ => rows
  else rows

/-- Candidate construction of `extract_location_ids` (lines 392-407):
`(score, str(location_id), display name)` per row with a truthy-or-chained
id. -/
def locCandidates (areaLower : String) : List PyVal → List (ℤ × String × String)
  | [] => []
  | row :: rest =>
    let es := row.asDict
    let location_id := pyOr (pyOr ((lookupKey es "id").getD .none)
      ((lookupKey es "location_id").getD .none)) ((lookupKey es "externalID").getD .none)
    match location_id with
    | PyVal.none => locCandidates areaLower rest
    | lid =>
      let name := pyStrip (pyStr ((lookupKey es "name").getD (.str "")))
      let full_name := pyStrip (pyStr ((lookupKey es "full_name").getD (.str "")))
      let city := pyStrip (pyStr ((lookupKey es "city_name").getD (.str "")))
      let combined := pyLower (name ++ " " ++ full_name ++ " " ++ city)
      let score := (if strContains combined areaLower then (2 : ℤ) else 0) +
        (if strContains combined "dubai" then 1 else 0)
      (score, pyStr lid, if name ≠ "" then name
        else if full_name ≠ "" then full_name else pyStr lid) :: locCandidates areaLower rest

/-- Stable insertion for a descending sort by score (Python
`list.sort(key=..., reverse=True)` is stable). -/
def insertCandidate (x : ℤ × String × String) :
    List (ℤ × String × String) → List (ℤ × String × String)
  | [] => [x]
  | y :: ys => if x.1 > y.1 then x :: y :: ys else y :: insertCandidate x ys

/-- Stable descending sort by score. -/
def sortCandidates (l : List (ℤ × String × String)) : List (ℤ × String × String) :=
  l.foldr insertCandidate []

/-- Selection loop of `extract_location_ids` (lines 413-421): up to five
distinct ids in sorted order. -/
def selectIdsAux : List (ℤ × String × String) → List String → List String
  | [], acc => acc.reverse
  | c :: rest, acc =>
    if c.2.1 ∈ acc then selectIdsAux rest acc
    else if acc.length + 1 ≥ 5 then (c.2.1 :: acc).reverse
    else selectIdsAux rest (c.2.1 :: acc)

/-- `extract_location_ids` (lines 382-422). -/
def extract_location_ids (payload : PyVal) (area_name : String) :
    List String × List PyVal :=
  let rows := locRowsOf payload
  let cands := locCandidates (pyLower (pyStrip area_name)) rows
  if cands.isEmpty then ([], rows)
  else (selectIdsAux (sortCandidates cands) [], rows)

/-- Truthiness of an optional float (`if amount:`). -/
def optQTruthy : Option ℚ → Bool
  | some a => decide (a ≠ 0)
  | Option.none => false

/-- `extract_annual_rent_from_transaction` (lines 425-446): a truthy
`contract.monthly_amount` × 12 wins; else a truthy total amount scaled by
`12 / duration_months` when that is positive; else the bare total. -/
def extract_annual_rent_from_transaction (txn : PyVal) : Option ℚ :=
  match txn with
  | .dict es =>
    let contract :=
      match lookupKey es "contract" with
      | some (.dict cs) => cs
      | _ => ([] : List (String × PyVal))
    let monthly := parse_amount ((lookupKey contract "monthly_amount").getD .none)
    let duration := parse_amount ((lookupKey contract "duration_months").getD .none)
    let total := parse_amount ((lookupKey es "amount").getD .none)
    if optQTruthy monthly then some (monthly.getD 0 * 12)
    else if optQTruthy total ∧ optQTruthy duration ∧ duration.getD 0 > 0 then
      some (total.getD 0 * (12 / duration.getD 0))
    else if optQTruthy total then some (total.getD 0)
    else Option.none
  | _ => Option.none

/-- Python `round()` on a float: round half to even (banker's rounding). -/
def pyRound (q : ℚ) : ℤ :=
  let f := ⌊q⌋
  let r := q - (f : ℚ)
  if r < 1 / 2 then f
  else if r > 1 / 2 then f + 1
  else if f % 2 = 0 then f else f + 1

/-- Ascending insertion into a sorted list. -/
def insertSorted (x : ℚ) : List ℚ → List ℚ
  | [] => [x]
  | y :: ys => if x ≤ y then x :: y :: ys else y :: insertSorted x ys

/-- Python `sorted(rents)`. -/
def sortRents (l : List ℚ) : List ℚ := l.foldr insertSorted []

/-- Python `sum(...)` (left fold from 0). -/
def listSum (l : List ℚ) : ℚ := l.foldl (· + ·) 0

/-- The aggregation step of `get_bayut_rent` (lines 630-644): on a
non-empty rent list, the headline figure `int(round(mean))` and the
median (odd length: middle element; even: midpoint of the two middle
elements).  An empty list signals "no qualifying data" (`none`). -/
def aggregateRents (rents : List ℚ) : Option (ℤ × ℚ) :=
  if rents.isEmpty then Option.none
  else
    let s := sortRents rents
    let avg := pyRound (listSum s / (s.length : ℚ))
    let mid := s.length / 2
    let median :=
      if s.length % 2 = 1 then s.getD mid 0
      else (s.getD (mid - 1) 0 + s.getD mid 0) / 2
    some (avg, median)

/-- The per-transaction body of the `get_bayut_rent` loop (lines
583-625): skip contracts whose type mentions renewal; skip records with
no parseable `date` or a date before `now - 183 days` or after
`now + 1 day`; with a bedroom target, skip records whose
`property.beds` is missing or different; keep the extracted annual rent
only inside the plausibility band.  Returns the rent appended to the
sample, or `none` when the record is skipped. -/
def processTxn (now : DT) (target : Option ℤ) (txn : PyVal) : Option ℚ :=
  let es := txn.asDict
  let contract :=
    match lookupKey es "contract" with
    | some (.dict cs) => cs
    | _ => ([] : List (String × PyVal))
  let contract_type := pyLower (pyStrip (pyStr ((lookupKey contract "contract_type").getD
    (.str ""))))
  if contract_type ≠ "" ∧ strContains contract_type "renew" then Option.none
  else
    match parse_datetime ((lookupKey es "date").getD .none) with
    | Option.none => Option.none
    | some d =>
      if dtLt d (dtAddDays now (-183)) || dtLt (dtAddDays now 1) d then Option.none
      else
        let property :=
          match lookupKey es "property" with
          | some (.dict ps) => ps
          | _ => ([] : List (String × PyVal))
        let bed := parse_bed_value ((lookupKey property "beds").getD .none)
        let unitOK :=
          match target with
          | Option.none => true
          | some t => bed = some t
        if !unitOK then Option.none
        else
          match extract_annual_rent_from_transaction txn with
          | some r => if 10000 ≤ r ∧ r ≤ 5000000 then some r else Option.none
          | Option.none => Option.none

/-- Records of one transactions page (lines 575-579): `extract_records`,
then the `"transactions"` key as a fallback. -/
def pageRecords (payload : PyVal) : List PyVal :=
  let records := extract_records payload
  if records.isEmpty then
    match payload with
    | .dict es =>
      match lookupKey es "transactions" with
      | some (.list l) => l.filter PyVal.isDict
      | _ => records
    | _ => records
  else records

/-- The page loop of `get_bayut_rent` (lines 538-628, transport
abstracted): up to three pages, stopping early after a page of fewer than
20 records; `pages i` is the decoded payload of the POST for page `i`. -/
def qrLoop (now : DT) (target : Option ℤ) (pages : ℕ → PyVal) : ℕ → ℕ → List ℚ
  | _, 0 => []
  | i, fuel + 1 =>
    let records := pageRecords (pages i)
    let rs := records.filterMap (processTxn now target)
    rs ++ (if records.length < 20 then [] else qrLoop now target pages (i + 1) fuel)

/-- The qualifying rent sample assembled by `get_bayut_rent` from the
transaction pages. -/
def qualifyingRents (now : DT) (target : Option ℤ) (pages : ℕ → PyVal) : List ℚ :=
  qrLoop now target pages 0 3

/-- The decision-relevant subset of the `debug` dict `get_bayut_rent`
returns (provenance tag, fallback reason, reported statistics). -/
structure Debug where
  source : String
  fallback_reason : Option String := Option.none
  fallback_rent_aed : Option ℚ := Option.none
  avg_rent_aed : Option ℤ := Option.none
  median_rent_aed : Option ℤ := Option.none
deriving DecidableEq

/-- The static `fallback_index` table (lines 478-484). -/
def fallback_index : List (String × List (String × ℚ)) :=
  [("Dubai Marina", [("Studio", 88000), ("1 Bedroom", 142000), ("2 Bedroom", 218000),
      ("3 Bedroom", 325000)]),
    ("Jumeirah Village Circle", [("Studio", 54000), ("1 Bedroom", 82000),
      ("2 Bedroom", 122000), ("3 Bedroom", 168000)]),
    ("Downtown Dubai", [("Studio", 118000), ("1 Bedroom", 195000), ("2 Bedroom", 365000),
      ("3 Bedroom", 540000)]),
    ("The Springs", [("2 Bedroom", 185000), ("3 Bedroom", 235000), ("4 Bedroom", 280000)]),
    ("Dubai Hills Estate", [("Studio", 82000), ("1 Bedroom", 118000), ("2 Bedroom", 185000),
      ("3 Bedroom", 295000)])]

/-- `fallback_index.get(area_name, {}).get(unit_type, 0)`. -/
def fallbackLookup (area unit : String) : ℚ :=
  match lookupKey fallback_index area with
  | Option.none => 0
  | some table =>
    match lookupKey table unit with
    | Option.none => 0
    | some r => r

/-- Is `(area, unit)` absent from the fallback table? -/
def fallbackAbsent (area unit : String) : Bool :=
  match lookupKey fallback_index area with
  | Option.none => true
  | some table => !hasKey table unit

/-- `get_bayut_rent` (lines 449-660) with the HTTP transport abstracted:
`locPayload` is the decoded locations-search response and `pages i` the
decoded transactions response for page `i` (the successful-transport
paths; 401 and exception paths also end in the same fallback tail).
Returns the rent figure and the decision-relevant debug fields. -/
def getBayutRent (now : DT) (area_name property_type unit_type api_key : String)
    (locPayload : PyVal) (pages : ℕ → PyVal) : ℚ × Debug :=
  let target := parse_target_bedrooms unit_type
  if api_key = "" then
    (fallbackLookup area_name unit_type,
      { source := "fallback_index",
        fallback_reason := some "Missing Bayut RapidAPI key.",
        fallback_rent_aed := some (fallbackLookup area_name unit_type) })
  else
    let ids := (extract_location_ids locPayload area_name).1
    if ids.isEmpty then
      (fallbackLookup area_name unit_type,
        { source := "fallback_index",
          fallback_reason := some "Bayut locations search returned no matching location id.",
          fallback_rent_aed := some (fallbackLookup area_name unit_type) })
    else
      match aggregateRents (qualifyingRents now target pages) with
      | some (avg, median) =>
        ((avg : ℚ),
          { source := "bayut_api", avg_rent_aed := some avg,
            median_rent_aed := some (pyRound median) })
      | Option.none =>
        (fallbackLookup area_name unit_type,
          { source := "fallback_index",
            fallback_reason := some "No Bayut transactions matched filters.",
            fallback_rent_aed := some (fallbackLookup area_name unit_type) })

/-- The module-level ROI computation (lines 727-730): runs only when the
final rent is strictly positive, and then produces (total entry cost, net
annual income, ROI %). -/
def roiComputation (final_rent unit_price commission_pct occupancy unit_size
    service_charge : ℚ) : Option (ℚ × ℚ × ℚ) :=
  if 0 < final_rent then
    let total_entry := unit_price * (1 + 4 / 100 + commission_pct / 100) + 4580
    let net_income := final_rent * (occupancy / 100) - unit_size * service_charge
    some (total_entry, net_income, net_income / total_entry * 100)
  else Option.none

/-- C1: when a query's payload yields zero qualifying records after
filtering, `get_bayut_rent` signals "no data" by returning the fallback
value with `debug["source"] = "fallback_index"` and a fallback reason
set; and the module-level ROI computation runs exactly when the final
rent is strictly positive, so a rent of 0 is never fed to the ROI
formula. -/
theorem claim_C1 :
    (∀ (now : DT) (area ptype utype key : String) (locPayload : PyVal)
      (pages : ℕ → PyVal),
      qualifyingRents now (parse_target_bedrooms utype) pages = [] →
      (getBayutRent now area ptype utype key locPayload pages).2.source = "fallback_index" ∧
      ((getBayutRent now area ptype utype key locPayload pages).2.fallback_reason).isSome
        = true ∧
      (getBayutRent now area ptype utype key locPayload pages).1 =
        fallbackLookup area utype) ∧
    (∀ final_rent unit_price commission_pct occupancy unit_size service_charge : ℚ,
      (roiComputation final_rent unit_price commission_pct occupancy unit_size
        service_charge).isSome = true ↔ 0 < final_rent) := by
  constructor
  · intro now area ptype utype key lp pages hq
    simp only [getBayutRent]
    split_ifs with hk hi
    · exact ⟨rfl, rfl, rfl⟩
    · exact ⟨rfl, rfl, rfl⟩
    · rw [hq]
      exact ⟨rfl, rfl, rfl⟩
  · intro fr up cp oc us sc
    unfold roiComputation
    split_ifs with h <;> simp [h]

/-- Witness for C1: a payload with no records yields an empty qualifying
sample, and the theorem then gives the fallback result; the ROI guard is
instantiated at a concrete rent. -/
theorem claim_C1_witness :
    qualifyingRents ⟨2025, 10, 12, 0, 0, 0⟩ (parse_target_bedrooms "2 Bedroom")
        (fun _ => PyVal.dict []) = [] ∧
    ((getBayutRent ⟨2025, 10, 12, 0, 0, 0⟩ "Dubai Marina" "Apartment" "2 Bedroom" "KEY"
        (.dict []) (fun _ => PyVal.dict [])).2.source = "fallback_index" ∧
      ((getBayutRent ⟨2025, 10, 12, 0, 0, 0⟩ "Dubai Marina" "Apartment" "2 Bedroom" "KEY"
        (.dict []) (fun _ => PyVal.dict [])).2.fallback_reason).isSome = true ∧
      (getBayutRent ⟨2025, 10, 12, 0, 0, 0⟩ "Dubai Marina" "Apartment" "2 Bedroom" "KEY"
        (.dict []) (fun _ => PyVal.dict [])).1 = fallbackLookup "Dubai Marina" "2 Bedroom") ∧
    ((roiComputation 142000 1500000 2 92 800 16).isSome = true ↔ (0 : ℚ) < 142000) :=
  ⟨by decide,
    claim_C1.1 ⟨2025, 10, 12, 0, 0, 0⟩ "Dubai Marina" "Apartment" "2 Bedroom" "KEY"
      (.dict []) (fun _ => PyVal.dict []) (by decide),
    claim_C1.2 142000 1500000 2 92 800 16⟩

/-- C10: with an empty API key `get_bayut_rent` returns the static
fallback-index value immediately — the result does not depend on any
network response — with `source = "fallback_index"` and the missing-key
fallback reason; and a pair absent from the fallback table yields rent 0. -/
theorem claim_C10 (now : DT) (area ptype utype : String) (locPayload : PyVal)
    (pages : ℕ → PyVal) :
    (getBayutRent now area ptype utype "" locPayload pages).1 = fallbackLookup area utype ∧
    (getBayutRent now area ptype utype "" locPayload pages).2.source = "fallback_index" ∧
    (getBayutRent now area ptype utype "" locPayload pages).2.fallback_reason =
      some "Missing Bayut RapidAPI key." ∧
    (∀ (locPayload2 : PyVal) (pages2 : ℕ → PyVal),
      getBayutRent now area ptype utype "" locPayload2 pages2 =
        getBayutRent now area ptype utype "" locPayload pages) ∧
    (fallbackAbsent area utype = true → fallbackLookup area utype = 0) := by
  refine ⟨rfl, rfl, rfl, fun _ _ => rfl, ?_⟩
  intro h
  unfold fallbackAbsent at h
  cases h1 : lookupKey fallback_index area with
  | none => simp [fallbackLookup, h1]
  | some table =>
    rw [h1] at h
    cases h2 : lookupKey table utype with
    | none => simp [fallbackLookup, h1, h2]
    | some r => simp [hasKey, h2] at h

/-- Witness for C10 at a pair absent from the fallback table. -/
theorem claim_C10_witness :
    fallbackAbsent "Atlantis" "9 Bedroom" = true ∧
    fallbackLookup "Atlantis" "9 Bedroom" = 0 :=
  ⟨by decide,
    (claim_C10 ⟨2025, 10, 12, 0, 0, 0⟩ "Atlantis" "Apartment" "9 Bedroom" (.dict [])
      (fun _ => PyVal.dict [])).2.2.2.2 (by decide)⟩

/-- Counterexample for C2: a record carrying both a higher-priority
status key (`contract_renewal_status: "New"`) and
`contract_type_en: "Renewal"` is classified `"new"`, not `"renewal"` —
the classification is not independent of the other fields. -/
theorem claim_C2_counterexample :
    lookupKey [("contract_renewal_status", PyVal.str "New"),
      ("contract_type_en", PyVal.str "Renewal")] "contract_type_en" =
      some (PyVal.str "Renewal") ∧
    classify_contract_status [("contract_renewal_status", PyVal.str "New"),
      ("contract_type_en", PyVal.str "Renewal")] = "new" :=
  ⟨rfl, by decide⟩

/-- C2 (amended): a record whose `contract_type_en` is `"Renewal"` is
classified `"renewal"` regardless of its other fields, provided none of
the keys earlier in the priority list (`contract_renewal_status`,
`renewal_status`, `is_renewal`) is present. -/
theorem claim_C2 (record : List (String × PyVal))
    (h1 : lookupKey record "contract_renewal_status" = Option.none)
    (h2 : lookupKey record "renewal_status" = Option.none)
    (h3 : lookupKey record "is_renewal" = Option.none)
    (h4 : lookupKey record "contract_type_en" = some (PyVal.str "Renewal")) :
    classify_contract_status record = "renewal" := by
  unfold classify_contract_status STATUS_KEYS
  simp only [classifyLoop, h1, h2, h3, h4]
  rw [show classifyStatusValue (PyVal.str "Renewal") = some "renewal" from by decide]

/-- Witness for C2 at a concrete record with extra fields. -/
theorem claim_C2_witness :
    classify_contract_status [("contract_type_en", PyVal.str "Renewal"),
      ("bedrooms", PyVal.int 3), ("annual_rent", PyVal.int 90000)] = "renewal" :=
  claim_C2 [("contract_type_en", PyVal.str "Renewal"), ("bedrooms", PyVal.int 3),
    ("annual_rent", PyVal.int 90000)] rfl rfl rfl rfl

/-- A record none of whose field names designate a unit contributes
nothing to the bedroom scan. -/
theorem bedrooms_foldl_const (l : List (String × PyVal)) (acc : List ℤ × Bool)
    (h : ∀ kv ∈ l, isUnitKeyName kv.1 = false) :
    l.foldl (fun a kv => bedroomsStep a kv.1 kv.2) acc = acc := by
  induction l generalizing acc with
  | nil => rfl
  | cons kv rest ih =>
    have hk : isUnitKeyName kv.1 = false := h kv (by simp)
    rw [List.foldl_cons]
    have hstep : bedroomsStep acc kv.1 kv.2 = acc := by
      unfold bedroomsStep
      rw [hk]
      simp
    rw [hstep]
    exact ih acc (fun x hx => h x (by simp [hx]))

/-- C9: with target bedroom count 2, a record with `bedrooms: "2 BR"`
matches the unit filter (with unit info seen); a record with no
unit-designating field at all yields `(false, false)` — "insufficient
information", distinct from a non-match, which yields `(false, true)`;
and every record trivially matches when no target is specified. -/
theorem claim_C9 :
    record_matches_target_unit [("bedrooms", PyVal.str "2 BR")] (some 2) = (true, true) ∧
    (∀ record : List (String × PyVal),
      (∀ kv ∈ record, isUnitKeyName kv.1 = false) →
      record_matches_target_unit record (some 2) = (false, false)) ∧
    (∀ record : List (String × PyVal),
      (record_matches_target_unit record Option.none).1 = true) := by
  refine ⟨by decide, ?_, ?_⟩
  · intro record h
    have hb : extract_record_bedrooms record = ([], false) :=
      bedrooms_foldl_const record ([], false) h
    unfold record_matches_target_unit
    rw [hb]
    decide
  · intro record
    rfl

/-- Witness for C9 at a record with only non-unit fields. -/
theorem claim_C9_witness :
    record_matches_target_unit [("price", PyVal.int 5), ("annual_rent", PyVal.int 90000)]
      (some 2) = (false, false) :=
  claim_C9.2.1 [("price", PyVal.int 5), ("annual_rent", PyVal.int 90000)] (by decide)

/-- Counterexample for C3: a transaction dated twelve hours after query
time is outside the claimed window (whose end is query time) yet is NOT
excluded — it qualifies and contributes its rent, because the code's
upper cutoff is `now + timedelta(days=1)`. -/
theorem claim_C3_counterexample :
    parse_datetime (PyVal.str "2025-10-12 12:00:00") = some ⟨2025, 10, 12, 12, 0, 0⟩ ∧
    dtLt ⟨2025, 10, 12, 0, 0, 0⟩ ⟨2025, 10, 12, 12, 0, 0⟩ = true ∧
    processTxn ⟨2025, 10, 12, 0, 0, 0⟩ (some 1)
      (.dict [("date", .str "2025-10-12 12:00:00"),
        ("property", .dict [("beds", .int 1)]),
        ("contract", .dict [("contract_type", .str "New"),
          ("monthly_amount", .int 10000)])]) = some 120000 :=
  ⟨by decide, by decide, by decide⟩

/-- C3 (amended): in the per-transaction loop of `get_bayut_rent`, a
record with no resolvable `date`, or with a resolved date before
`now - 183 days` or after `now + 1 day` (the code's window end is one day
past query time), is excluded from the qualifying set. -/
theorem claim_C3 (now : DT) (target : Option ℤ) (txn : PyVal) :
    (parse_datetime ((lookupKey txn.asDict "date").getD .none) = Option.none →
      processTxn now target txn = Option.none) ∧
    (∀ d : DT, parse_datetime ((lookupKey txn.asDict "date").getD .none) = some d →
      (dtLt d (dtAddDays now (-183)) = true ∨ dtLt (dtAddDays now 1) d = true) →
      processTxn now target txn = Option.none) := by
  constructor
  · intro h
    simp only [processTxn]
    split
    · rfl
    · rw [h]
  · intro d hd hw
    simp only [processTxn]
    split
    · rfl
    · rw [hd]
      rcases hw with hw | hw <;> simp [hw]

/-- Witness for C3: a record whose date is years before the window is
excluded. -/
theorem claim_C3_witness :
    processTxn ⟨2025, 10, 12, 0, 0, 0⟩ (some 1) (.dict [("date", .str "2020-01-01"),
      ("property", .dict [("beds", .int 1)]),
      ("contract", .dict [("monthly_amount", .int 10000)])]) = Option.none :=
  (claim_C3 ⟨2025, 10, 12, 0, 0, 0⟩ (some 1) (.dict [("date", .str "2020-01-01"),
      ("property", .dict [("beds", .int 1)]),
      ("contract", .dict [("monthly_amount", .int 10000)])])).2
    ⟨2020, 1, 1, 0, 0, 0⟩ (by decide) (Or.inl (by decide))

/-- A value `rentFromKV` accepts lies in the plausibility band. -/
theorem rentFromKV_band (k : String) (v : PyVal) (a : ℚ)
    (h : rentFromKV k v = some a) : 10000 ≤ a ∧ a ≤ 5000000 := by
  unfold rentFromKV at h
  cases hp : parse_amount v with
  | none => simp [hp] at h
  | some a0 =>
    simp only [hp] at h
    split_ifs at h with h1 h2 h3 <;> cases h <;> assumption

/-- Any rent the `RENT_KEYS` loop returns lies in the plausibility band. -/
theorem rentKeysLoop_band (record : List (String × PyVal)) (ks : List String) (a : ℚ)
    (h : rentKeysLoop record ks = some a) : 10000 ≤ a ∧ a ≤ 5000000 := by
  induction ks with
  | nil => exact absurd h (by simp [rentKeysLoop])
  | cons k ks ih =>
    unfold rentKeysLoop at h
    cases hl : lookupKey record k with
    | none => simp only [hl] at h; exact ih h
    | some v =>
      simp only [hl] at h
      cases hr : rentFromKV k v with
      | none => simp only [hr] at h; exact ih h
      | some b =>
        simp only [hr] at h
        cases h
        exact rentFromKV_band k v _ hr

/-- Any rent the free-scan loop returns lies in the plausibility band. -/
theorem rentItemsLoop_band (items : List (String × PyVal)) (a : ℚ)
    (h : rentItemsLoop items = some a) : 10000 ≤ a ∧ a ≤ 5000000 := by
  induction items with
  | nil => exact absurd h (by simp [rentItemsLoop])
  | cons kv rest ih =>
    unfold rentItemsLoop at h
    split_ifs at h with h1 h2
    · exact ih h
    · exact ih h
    · cases hr : rentFromKV kv.1 kv.2 with
      | none => simp only [hr] at h; exact ih h
      | some b =>
        simp only [hr] at h
        cases h
        exact rentFromKV_band kv.1 kv.2 _ hr

/-- C6: `extract_annual_rent` returns no value or an amount inside the
plausibility band `[10000, 5000000]` (out-of-band parses are discarded,
never returned); and an amount parsed from a monthly field is multiplied
by 12 before the band check, as the single-field `monthly_rent` record
shows for every value. -/
theorem claim_C6 :
    (∀ (record : List (String × PyVal)) (a : ℚ),
      extract_annual_rent record = some a → 10000 ≤ a ∧ a ≤ 5000000) ∧
    (∀ v : PyVal, extract_annual_rent [("monthly_rent", v)] =
      match parse_amount v with
      | some a0 =>
        if 10000 ≤ a0 * 12 ∧ a0 * 12 ≤ 5000000 then some (a0 * 12) else Option.none
      | Option.none => Option.none) := by
  constructor
  · intro record a h
    unfold extract_annual_rent at h
    cases hk : rentKeysLoop record RENT_KEYS with
    | none => rw [hk] at h; exact rentItemsLoop_band record a h
    | some b =>
      rw [hk] at h
      cases h
      exact rentKeysLoop_band record RENT_KEYS a hk
  · intro v
    have hM : strContains "monthly_rent" "monthly" = true := by decide
    have hR : strContains "monthly_rent" "rent" = true := by decide
    have hE1 : strContains "monthly_rent" "sqft" = false := by decide
    have hE2 : strContains "monthly_rent" "sqm" = false := by decide
    have hE3 : strContains "monthly_rent" "service" = false := by decide
    have hE4 : strContains "monthly_rent" "plot" = false := by decide
    have hE5 : strContains "monthly_rent" "fee" = false := by decide
    cases hp : parse_amount v with
    | none =>
      simp [extract_annual_rent, rentKeysLoop, rentItemsLoop, RENT_KEYS, lookupKey,
        rentFromKV, hp, hM, hR, hE1, hE2, hE3, hE4, hE5]
    | some a0 =>
      simp [extract_annual_rent, rentKeysLoop, rentItemsLoop, RENT_KEYS, lookupKey,
        rentFromKV, hp, hM, hR, hE1, hE2, hE3, hE4, hE5]
      split_ifs <;> simp_all

/-- Witness for C6: the plausibility band holds at a concrete record. -/
theorem claim_C6_witness :
    (10000 : ℚ) ≤ 142000 ∧ (142000 : ℚ) ≤ 5000000 :=
  claim_C6.1 [("annual_rent", PyVal.str "142,000 AED")] 142000 (by decide)

/-- `int(...)` truncation of an integer-valued float is the integer. -/
theorem ratTrunc_intCast (n : ℤ) : ratTrunc (n : ℚ) = n := by
  unfold ratTrunc
  split_ifs <;> simp

/-- C8: every 8-digit integer in `[19000101, 22001231]` that reads as a
real `YYYYMMDD` calendar date is parsed by `parse_datetime` as exactly
that calendar date (midnight, UTC). -/
theorem claim_C8 (y m d : ℤ) (hy1 : 1900 ≤ y) (hy2 : y ≤ 2200)
    (hv : isValidDate y m d = true) :
    parse_datetime (.int (y * 10000 + m * 100 + d)) = some ⟨y, m, d, 0, 0, 0⟩ := by
  have hm : 1 ≤ m ∧ m ≤ 12 ∧ 1 ≤ d ∧ d ≤ daysInMonth y m := by
    simpa [isValidDate] using hv
  have hd31 : daysInMonth y m ≤ 31 := by
    unfold daysInMonth
    split_ifs <;> norm_num
  have hn1 : (19000101 : ℤ) ≤ y * 10000 + m * 100 + d := by omega
  have hn2 : y * 10000 + m * 100 + d ≤ (22001231 : ℤ) := by omega
  have hstep : parse_datetime (.int (y * 10000 + m * 100 + d)) =
      parseDatetimeNum ((y * 10000 + m * 100 + d : ℤ) : ℚ) := rfl
  rw [hstep]
  unfold parseDatetimeNum
  rw [if_pos (show (10000000 : ℚ) ≤ ((y * 10000 + m * 100 + d : ℤ) : ℚ) ∧
      ((y * 10000 + m * 100 + d : ℤ) : ℚ) ≤ 99999999 by
    constructor <;> [exact_mod_cast (by omega : (10000000 : ℤ) ≤ y * 10000 + m * 100 + d);
      exact_mod_cast (by omega : y * 10000 + m * 100 + d ≤ (99999999 : ℤ))])]
  rw [ratTrunc_intCast]
  have hyy : Int.fdiv (y * 10000 + m * 100 + d) 10000 = y := by
    rw [Int.fdiv_eq_ediv _ (by norm_num)]
    omega
  have hmm : Int.fdiv (y * 10000 + m * 100 + d) 100 % 100 = m := by
    rw [Int.fdiv_eq_ediv _ (by norm_num)]
    omega
  have hdd : (y * 10000 + m * 100 + d) % 100 = d := by omega
  unfold parseYYYYMMDD
  rw [hyy, hmm, hdd, if_pos hv]
  simp

/-- Witness for C8 at 2025-03-01. -/
theorem claim_C8_witness :
    parse_datetime (.int 20250301) = some ⟨2025, 3, 1, 0, 0, 0⟩ :=
  claim_C8 2025 3 1 (by decide) (by decide) (by decide)

/-- The median as the specification words it: standard even/odd midpoint
averaging over the sorted sample (stated from the spec's words, for
comparison with the aggregation step of `get_bayut_rent`). -/
def specMedian (values : List ℚ) : ℚ :=
  let s := sortRents values
  if s.length % 2 = 1 then s.getD (s.length / 2) 0
  else (s.getD (s.length / 2 - 1) 0 + s.getD (s.length / 2) 0) / 2

theorem foldl_add_shift (l : List ℚ) (a : ℚ) :
    l.foldl (· + ·) a = a + l.foldl (· + ·) 0 := by
  induction l generalizing a with
  | nil => simp
  | cons x xs ih =>
    simp only [List.foldl_cons]
    rw [ih (a + x), ih (0 + x)]
    ring

theorem listSum_cons (x : ℚ) (l : List ℚ) : listSum (x :: l) = x + listSum l := by
  unfold listSum
  rw [List.foldl_cons, foldl_add_shift]
  ring

theorem insertSorted_length (x : ℚ) (l : List ℚ) :
    (insertSorted x l).length = l.length + 1 := by
  induction l with
  | nil => rfl
  | cons y ys ih =>
    unfold insertSorted
    split_ifs <;> simp [List.length_cons, ih]

theorem insertSorted_sum (x : ℚ) (l : List ℚ) :
    listSum (insertSorted x l) = x + listSum l := by
  induction l with
  | nil => simp [insertSorted, listSum]
  | cons y ys ih =>
    unfold insertSorted
    split_ifs with hxy
    · rw [listSum_cons]
    · rw [listSum_cons, ih, listSum_cons]
      ring

theorem sortRents_length (l : List ℚ) : (sortRents l).length = l.length := by
  induction l with
  | nil => rfl
  | cons x xs ih =>
    show (insertSorted x (sortRents xs)).length = xs.length + 1
    rw [insertSorted_length, ih]

theorem sortRents_sum (l : List ℚ) : listSum (sortRents l) = listSum l := by
  induction l with
  | nil => rfl
  | cons x xs ih =>
    show listSum (insertSorted x (sortRents xs)) = listSum (x :: xs)
    rw [insertSorted_sum, ih, listSum_cons]

/-- Banker's rounding lands on a nearest integer. -/
theorem pyRound_nearest (q : ℚ) : |((pyRound q : ℤ) : ℚ) - q| ≤ 1 / 2 := by
  have h0 : ((⌊q⌋ : ℤ) : ℚ) ≤ q := Int.floor_le q
  have h1 : q < (⌊q⌋ : ℚ) + 1 := Int.lt_floor_add_one q
  simp only [pyRound]
  split_ifs with ha hb hc <;> rw [abs_le] <;> constructor <;> push_cast <;> linarith

/-- C7: on every non-empty rent sample the aggregator returns the
arithmetic mean rounded to a nearest integer (banker's rounding, within
1/2 of the exact mean) as the headline figure, and the median by standard
even/odd midpoint averaging over the sorted sample; in particular
`[100000, 120000, 110000]` yields mean 110000 and median 110000, and
`[100000, 200000]` yields median 150000. -/
theorem claim_C7 :
    (∀ rents : List ℚ, rents ≠ [] →
      ∃ (a : ℤ) (m : ℚ), aggregateRents rents = some (a, m) ∧
        |((a : ℤ) : ℚ) - listSum rents / (rents.length : ℚ)| ≤ 1 / 2 ∧
        m = specMedian rents) ∧
    aggregateRents [100000, 120000, 110000] = some (110000, 110000) ∧
    aggregateRents [100000, 200000] = some (150000, 150000) := by
  refine ⟨?_, by decide, by decide⟩
  intro rents h
  have hne : rents.isEmpty = false := by
    cases rents with
    | nil => exact absurd rfl h
    | cons x xs => rfl
  have hEq : aggregateRents rents =
      some (pyRound (listSum (sortRents rents) / ((sortRents rents).length : ℚ)),
        specMedian rents) := by
    unfold aggregateRents specMedian
    rw [hne]
    rfl
  refine ⟨_, _, hEq, ?_, rfl⟩
  have hms : listSum (sortRents rents) / ((sortRents rents).length : ℚ)
      = listSum rents / (rents.length : ℚ) := by
    rw [sortRents_sum, sortRents_length]
  rw [hms]
  exact pyRound_nearest _

/-- Witness for C7 at a singleton sample. -/
theorem claim_C7_witness :
    ∃ (a : ℤ) (m : ℚ), aggregateRents [100000] = some (a, m) ∧
      |((a : ℤ) : ℚ) - listSum [100000] / (([100000] : List ℚ).length : ℚ)| ≤ 1 / 2 ∧
      m = specMedian [100000] :=
  claim_C7.1 [100000] (by decide)

/-- Counterexample for C4: the integer input `0` "resolves to zero" but
`parse_amount` returns `0.0` (Python `float(0)`), not `None` — numeric
inputs bypass the positivity check. -/
theorem claim_C4_counterexample : parse_amount (.int 0) = some 0 := by decide

/-- ASCII upper-casing maps digits to digits and non-digits to
non-digits. -/
theorem isDigit_pyUpperChar (c : Char) : (pyUpperChar c).isDigit = c.isDigit := by
  by_cases h1 : c = 'a'
  · subst h1; decide
  by_cases h2 : c = 'b'
  · subst h2; decide
  by_cases h3 : c = 'c'
  · subst h3; decide
  by_cases h4 : c = 'd'
  · subst h4; decide
  by_cases h5 : c = 'e'
  · subst h5; decide
  by_cases h6 : c = 'f'
  · subst h6; decide
  by_cases h7 : c = 'g'
  · subst h7; decide
  by_cases h8 : c = 'h'
  · subst h8; decide
  by_cases h9 : c = 'i'
  · subst h9; decide
  by_cases h10 : c = 'j'
  · subst h10; decide
  by_cases h11 : c = 'k'
  · subst h11; decide
  by_cases h12 : c = 'l'
  · subst h12; decide
  by_cases h13 : c = 'm'
  · subst h13; decide
  by_cases h14 : c = 'n'
  · subst h14; decide
  by_cases h15 : c = 'o'
  · subst h15; decide
  by_cases h16 : c = 'p'
  · subst h16; decide
  by_cases h17 : c = 'q'
  · subst h17; decide
  by_cases h18 : c = 'r'
  · subst h18; decide
  by_cases h19 : c = 's'
  · subst h19; decide
  by_cases h20 : c = 't'
  · subst h20; decide
  by_cases h21 : c = 'u'
  · subst h21; decide
  by_cases h22 : c = 'v'
  · subst h22; decide
  by_cases h23 : c = 'w'
  · subst h23; decide
  by_cases h24 : c = 'x'
  · subst h24; decide
  by_cases h25 : c = 'y'
  · subst h25; decide
  by_cases h26 : c = 'z'
  · subst h26; decide
  have hid : pyUpperChar c = c := by
    unfold pyUpperChar
    rw [if_neg h1, if_neg h2, if_neg h3, if_neg h4, if_neg h5, if_neg h6, if_neg h7, if_neg h8, if_neg h9, if_neg h10, if_neg h11, if_neg h12, if_neg h13, if_neg h14, if_neg h15, if_neg h16, if_neg h17, if_neg h18, if_neg h19, if_neg h20, if_neg h21, if_neg h22, if_neg h23, if_neg h24, if_neg h25, if_neg h26]
  rw [hid]

/-- Characters surviving a deleting replacement come from the input. -/
theorem mem_replaceWithAux_nil {pat : List Char} {fuel : ℕ} {l : List Char} {c : Char}
    (h : c ∈ replaceWithAux pat [] fuel l) : c ∈ l := by
  induction fuel generalizing l with
  | zero =>
    cases l with
    | nil => simpa [replaceWithAux] using h
    | cons x xs => simpa [replaceWithAux] using h
  | succ f ih =>
    cases l with
    | nil => simpa [replaceWithAux] using h
    | cons x xs =>
      simp only [replaceWithAux] at h
      split at h
      · simp only [List.nil_append] at h
        exact List.drop_subset _ _ (ih h)
      · rcases List.mem_cons.mp h with h1 | h2
        · exact h1 ▸ List.mem_cons_self x xs
        · exact List.mem_cons_of_mem x (ih h2)

/-- Characters surviving `replaceWith pat ""` come from the input. -/
theorem mem_replaceWith_nil {pat l : List Char} {c : Char}
    (h : c ∈ replaceWith pat [] l) : c ∈ l :=
  mem_replaceWithAux_nil h

/-- Characters surviving a strip come from the input. -/
theorem mem_stripChars {l : List Char} {c : Char} (h : c ∈ stripChars l) : c ∈ l := by
  unfold stripChars at h
  rw [List.mem_reverse] at h
  have h2 := (List.dropWhile_sublist _).subset h
  rw [List.mem_reverse] at h2
  exact (List.dropWhile_sublist _).subset h2

/-- A digit-free list has an empty leading digit run. -/
theorem takeWhile_isDigit_nil (r : List Char) (h : ∀ c ∈ r, c.isDigit = false) :
    r.takeWhile Char.isDigit = [] := by
  cases r with
  | nil => rfl
  | cons a as => simp [List.takeWhile_cons, h a (by simp)]

/-- The number regex finds nothing in a digit-free list. -/
theorem searchNum_eq_none (l : List Char) (h : ∀ c ∈ l, c.isDigit = false) :
    searchNum l = Option.none := by
  induction l with
  | nil => rfl
  | cons c cs ih =>
    have hm : matchNumAt (c :: cs) = Option.none := by
      simp only [matchNumAt]
      rw [takeWhile_isDigit_nil]
      · rfl
      · intro x hx
        by_cases hneg : (c :: cs).head? = some '-'
        · rw [if_pos (by simpa using hneg)] at hx
          exact h x (List.mem_cons_of_mem _ (by simpa using hx))
        · rw [if_neg (by simpa using hneg)] at hx
          exact h x hx
    simp only [searchNum, hm]
    exact ih fun x hx => h x (List.mem_cons_of_mem _ hx)

/-- The match-and-scale tail of `amountFromText`, when the regex finds
nothing. -/
theorem matchCore_none (x : List Char) (m : ℚ) (hx : searchNum x = Option.none) :
    (match searchNum x with
      | Option.none => Option.none
      | some q => if q * m ≤ 0 then Option.none else some (q * m)) = Option.none := by
  rw [hx]

/-- The match-and-scale tail of `amountFromText` only yields positives. -/
theorem matchCore_pos (x : List Char) (m a : ℚ)
    (h : (match searchNum x with
      | Option.none => Option.none
      | some q => if q * m ≤ 0 then Option.none else some (q * m)) = some a) : 0 < a := by
  cases hs : searchNum x with
  | none => rw [hs] at h; exact absurd h (by simp)
  | some q =>
    simp only [hs] at h
    split_ifs at h with hb
    all_goals first
      | (cases h; exact not_le.mp hb)
      | exact absurd h (by simp)

/-- `amountFromText` yields nothing on a digit-free list. -/
theorem amountFromText_nodigit (l : List Char) (h : ∀ c ∈ l, c.isDigit = false) :
    amountFromText l = Option.none := by
  have hdl : ∀ c ∈ l.dropLast, c.isDigit = false :=
    fun c hc => h c ((List.dropLast_sublist _).subset hc)
  unfold amountFromText
  split_ifs with h1 h2 h3
  · rfl
  · exact matchCore_none l.dropLast 1000000 (searchNum_eq_none _ hdl)
  · exact matchCore_none l.dropLast 1000 (searchNum_eq_none _ hdl)
  · exact matchCore_none l 1 (searchNum_eq_none _ h)

/-- Every value `amountFromText` yields is strictly positive. -/
theorem amountFromText_pos (l : List Char) (a : ℚ) (h : amountFromText l = some a) :
    0 < a := by
  unfold amountFromText at h
  split_ifs at h with h1 h2 h3 <;>
    first
      | exact matchCore_pos l.dropLast 1000000 a h
      | exact matchCore_pos l.dropLast 1000 a h
      | exact matchCore_pos l 1 a h
      | exact absurd h (by simp)

/-- The processed amount text of a digit-free string stays digit-free. -/
theorem amount_text_digit_free (s : String) (h : ∀ c ∈ s.data, c.isDigit = false) :
    ∀ c ∈ stripChars (replaceWith "DH".data [] (replaceWith "AED".data []
      (replaceWith ",".data [] (s.data.map pyUpperChar)))), c.isDigit = false := by
  intro c hc
  have h1 := mem_stripChars hc
  have h2 := mem_replaceWith_nil h1
  have h3 := mem_replaceWith_nil h2
  have h4 := mem_replaceWith_nil h3
  rcases List.mem_map.mp h4 with ⟨c0, hc0, rfl⟩
  rw [isDigit_pyUpperChar]
  exact h c0 hc0

/-- C4 (amended): `parse_amount` yields 150000.0, 150000.0 and 1500000.0
for `"AED 150,000"`, `"150k"` and `"1.5M"`; a string input that is empty,
contains no digit, or resolves to zero or negative (including `"0"`)
yields `None` — every string result is strictly positive; but numeric
inputs are converted with `float(...)` and returned without the
positivity check (so `0` and negatives pass through, per the
counterexample). -/
theorem claim_C4 :
    parse_amount (.str "AED 150,000") = some 150000 ∧
    parse_amount (.str "150k") = some 150000 ∧
    parse_amount (.str "1.5M") = some 1500000 ∧
    parse_amount (.str "") = Option.none ∧
    parse_amount (.str "0") = Option.none ∧
    (∀ n : ℤ, parse_amount (.int n) = some (n : ℚ)) ∧
    (∀ s : String, (∀ c ∈ s.data, c.isDigit = false) →
      parse_amount (.str s) = Option.none) ∧
    (∀ (s : String) (a : ℚ), parse_amount (.str s) = some a → 0 < a) := by
  refine ⟨by decide, by decide, by decide, by decide, by decide, fun n => rfl, ?_, ?_⟩
  · intro s h
    show amountFromText (stripChars (replaceWith "DH".data [] (replaceWith "AED".data []
      (replaceWith ",".data [] ((pyStr (.str s)).data.map pyUpperChar))))) = Option.none
    exact amountFromText_nodigit _ (amount_text_digit_free s h)
  · intro s a h
    exact amountFromText_pos _ a h

/-- Witness for C4: the no-digit and positivity parts instantiated. -/
theorem claim_C4_witness :
    parse_amount (.str "unknown") = Option.none ∧ (0 : ℚ) < 142000 :=
  ⟨claim_C4.2.2.2.2.2.2.1 "unknown" (by decide),
    claim_C4.2.2.2.2.2.2.2 "142,000 AED" 142000 (by decide)⟩

/-- "A list of mappings is found somewhere in the payload": some list at
any nesting depth contains a dict element. -/
inductive HasDictList : PyVal → Prop where
  | listDict {items : List PyVal} (v : PyVal) (hv : v ∈ items) (hd : v.isDict = true) :
      HasDictList (.list items)
  | listNest {items : List PyVal} (v : PyVal) (hv : v ∈ items) (h : HasDictList v) :
      HasDictList (.list items)
  | dictNest {es : List (String × PyVal)} (k : String) (v : PyVal) (hv : (k, v) ∈ es)
      (h : HasDictList v) : HasDictList (.dict es)

/-- A successful lookup returns an entry of the list. -/
theorem lookupKey_mem {α : Type} {es : List (String × α)} {k : String} {v : α}
    (h : lookupKey es k = some v) : (k, v) ∈ es := by
  induction es with
  | nil => exact absurd h (by simp [lookupKey])
  | cons kv rest ih =>
    rcases kv with ⟨k', v'⟩
    simp only [lookupKey] at h
    split_ifs at h with he
    · cases h
      subst he
      exact List.mem_cons_self _ _
    · exact List.mem_cons_of_mem _ (ih h)

/-- Without a dict element, the dict filter clears the list. -/
theorem filter_isDict_nil {l : List PyVal} (h : ∀ x ∈ l, x.isDict = false) :
    l.filter PyVal.isDict = [] := by
  induction l with
  | nil => rfl
  | cons x xs ih =>
    rw [List.filter_cons, if_neg (by simp [h x (List.mem_cons_self x xs)])]
    exact ih fun y hy => h y (List.mem_cons_of_mem x hy)

/-- A list value with no dict-list anywhere has no top-level dicts. -/
theorem no_top_dict_of_not_hasDictList {items : List PyVal}
    (h : ¬HasDictList (.list items)) : ∀ x ∈ items, x.isDict = false := by
  intro x hx
  by_contra hc
  exact h (HasDictList.listDict x hx (by simpa using hc))

/-- A dict value with no dict-list anywhere has no dict-list in any of
its entry values. -/
theorem entries_not_hasDictList {es : List (String × PyVal)}
    (h : ¬HasDictList (.dict es)) : ∀ k v, (k, v) ∈ es → ¬HasDictList v :=
  fun k v hv hd => h (HasDictList.dictNest k v hv hd)

/-- Over dict-list-free entries the nested candidate scan finds nothing
or an empty filtered list. -/
theorem findNestedList_empty {es : List (String × PyVal)}
    (hnd : ∀ k v, (k, v) ∈ es → ¬HasDictList v) (ks : List String) :
    findNestedList ks es = Option.none ∨ findNestedList ks es = some [] := by
  induction ks with
  | nil => exact Or.inl rfl
  | cons k ks ih =>
    cases hlk : lookupKey es k with
    | none => simp only [findNestedList, hlk]; exact ih
    | some v =>
      cases v with
      | list l =>
        simp only [findNestedList, hlk]
        exact Or.inr (by
          rw [filter_isDict_nil
            (no_top_dict_of_not_hasDictList (hnd k _ (lookupKey_mem hlk)))])
      | none => simp only [findNestedList, hlk]; exact ih
      | bool b => simp only [findNestedList, hlk]; exact ih
      | int n => simp only [findNestedList, hlk]; exact ih
      | float q => simp only [findNestedList, hlk]; exact ih
      | str s => simp only [findNestedList, hlk]; exact ih
      | dict es2 => simp only [findNestedList, hlk]; exact ih

/-- Over dict-list-free entries the candidate scan finds nothing or an
empty filtered list. -/
theorem findCandidate_empty {es : List (String × PyVal)}
    (hnd : ∀ k v, (k, v) ∈ es → ¬HasDictList v) (ks : List String) :
    findCandidate ks es = Option.none ∨ findCandidate ks es = some [] := by
  induction ks with
  | nil => exact Or.inl rfl
  | cons k ks ih =>
    cases hlk : lookupKey es k with
    | none => simp only [findCandidate, hlk]; exact ih
    | some v =>
      cases v with
      | list l =>
        simp only [findCandidate, hlk]
        exact Or.inr (by
          rw [filter_isDict_nil
            (no_top_dict_of_not_hasDictList (hnd k _ (lookupKey_mem hlk)))])
      | dict es2 =>
        have hnd2 : ∀ k2 v2, (k2, v2) ∈ es2 → ¬HasDictList v2 :=
          entries_not_hasDictList (hnd k _ (lookupKey_mem hlk))
        rcases findNestedList_empty hnd2 candidateKeys with hn | hn <;>
          simp only [findCandidate, hlk, hn]
        · exact ih
        · exact Or.inr trivial
      | none => simp only [findCandidate, hlk]; exact ih
      | bool b => simp only [findCandidate, hlk]; exact ih
      | int n => simp only [findCandidate, hlk]; exact ih
      | float q => simp only [findCandidate, hlk]; exact ih
      | str s => simp only [findCandidate, hlk]; exact ih

/-- Over dict-list-free entries the last-resort scan finds nothing. -/
theorem lastResort_empty {es : List (String × PyVal)}
    (hnd : ∀ k v, (k, v) ∈ es → ¬HasDictList v) : lastResort es = [] := by
  induction es with
  | nil => rfl
  | cons kv rest ih =>
    have ih2 := ih fun k v hv hd => hnd k v (List.mem_cons_of_mem _ hv) hd
    rcases kv with ⟨k, v⟩
    cases v with
    | list items =>
      cases items with
      | nil => exact ih2
      | cons x xs =>
        have hx : x.isDict = false :=
          no_top_dict_of_not_hasDictList (hnd k _ (List.mem_cons_self _ _)) x
            (List.mem_cons_self x xs)
        simpa [lastResort, hx] using ih2
    | none => exact ih2
    | bool b => exact ih2
    | int n => exact ih2
    | float q => exact ih2
    | str s => exact ih2
    | dict es2 => exact ih2

/-- Everything the nested candidate scan returns is a dict. -/
theorem findNestedList_all {es : List (String × PyVal)} {ks : List String}
    {r : List PyVal} (h : findNestedList ks es = some r) : ∀ x ∈ r, x.isDict = true := by
  induction ks with
  | nil => exact absurd h (by simp [findNestedList])
  | cons k ks ih =>
    cases hlk : lookupKey es k with
    | none => simp only [findNestedList, hlk] at h; exact ih h
    | some v =>
      cases v with
      | list l =>
        simp only [findNestedList, hlk] at h
        cases h
        intro x hx
        exact List.of_mem_filter hx
      | none => simp only [findNestedList, hlk] at h; exact ih h
      | bool b => simp only [findNestedList, hlk] at h; exact ih h
      | int n => simp only [findNestedList, hlk] at h; exact ih h
      | float q => simp only [findNestedList, hlk] at h; exact ih h
      | str s => simp only [findNestedList, hlk] at h; exact ih h
      | dict es2 => simp only [findNestedList, hlk] at h; exact ih h

/-- Everything the candidate scan returns is a dict. -/
theorem findCandidate_all {es : List (String × PyVal)} {ks : List String}
    {r : List PyVal} (h : findCandidate ks es = some r) : ∀ x ∈ r, x.isDict = true := by
  induction ks with
  | nil => exact absurd h (by simp [findCandidate])
  | cons k ks ih =>
    cases hlk : lookupKey es k with
    | none => simp only [findCandidate, hlk] at h; exact ih h
    | some v =>
      cases v with
      | list l =>
        simp only [findCandidate, hlk] at h
        cases h
        intro x hx
        exact List.of_mem_filter hx
      | dict es2 =>
        cases hn : findNestedList candidateKeys es2 with
        | none => simp only [findCandidate, hlk, hn] at h; exact ih h
        | some r2 =>
          simp only [findCandidate, hlk, hn] at h
          cases h
          exact findNestedList_all hn
      | none => simp only [findCandidate, hlk] at h; exact ih h
      | bool b => simp only [findCandidate, hlk] at h; exact ih h
      | int n => simp only [findCandidate, hlk] at h; exact ih h
      | float q => simp only [findCandidate, hlk] at h; exact ih h
      | str s => simp only [findCandidate, hlk] at h; exact ih h

/-- The last-resort scan only ever returns a list headed by a dict. -/
theorem lastResort_head {es : List (String × PyVal)} {h0 : PyVal} {t : List PyVal}
    (h : lastResort es = h0 :: t) : h0.isDict = true := by
  induction es with
  | nil => exact absurd h (by simp [lastResort])
  | cons kv rest ih =>
    rcases kv with ⟨k, v⟩
    cases v with
    | list items =>
      cases items with
      | nil => exact ih h
      | cons x xs =>
        by_cases hx : x.isDict = true
        · rw [show lastResort ((k, PyVal.list (x :: xs)) :: rest) = x :: xs from by
            simp [lastResort, hx]] at h
          cases h
          exact hx
        · rw [show lastResort ((k, PyVal.list (x :: xs)) :: rest) = lastResort rest from by
            simp [lastResort, hx]] at h
          exact ih h
    | none => exact ih h
    | bool b => exact ih h
    | int n => exact ih h
    | float q => exact ih h
    | str s => exact ih h
    | dict es2 => exact ih h

/-- Counterexample for C5: a payload whose only list sits under a
non-candidate key and mixes a dict with an int is returned whole by the
last-resort branch — the second element of the result is not a mapping. -/
theorem claim_C5_counterexample :
    extract_records (.dict [("foo", .list [.dict [], .int 5])]) = [.dict [], .int 5] ∧
    (PyVal.int 5).isDict = false :=
  ⟨rfl, rfl⟩

/-- C5 (amended): `extract_records` is a total function (the Python code
never raises); when no list of mappings occurs anywhere in the payload it
returns the empty sequence; and any non-empty result starts with a
mapping — but only the candidate-key branches filter to mappings; the
last-resort branch checks the first element alone, so later elements may
be non-mappings (per the counterexample). -/
theorem claim_C5 (payload : PyVal) :
    (∀ (h0 : PyVal) (t : List PyVal), extract_records payload = h0 :: t →
      h0.isDict = true) ∧
    (¬HasDictList payload → extract_records payload = []) := by
  constructor
  · intro h0 t h
    cases payload with
    | list items =>
      have : h0 ∈ items.filter PyVal.isDict := by
        rw [show items.filter PyVal.isDict = h0 :: t from h]
        exact List.mem_cons_self _ _
      exact List.of_mem_filter this
    | dict es =>
      cases hfc : findCandidate candidateKeys es with
      | none =>
        simp only [extract_records, hfc] at h
        exact lastResort_head h
      | some r =>
        simp only [extract_records, hfc] at h
        cases h
        exact findCandidate_all hfc h0 (List.mem_cons_self _ _)
    | none => exact absurd h (by simp [extract_records])
    | bool b => exact absurd h (by simp [extract_records])
    | int n => exact absurd h (by simp [extract_records])
    | float q => exact absurd h (by simp [extract_records])
    | str s => exact absurd h (by simp [extract_records])
  · intro hnd
    cases payload with
    | list items => exact filter_isDict_nil (no_top_dict_of_not_hasDictList hnd)
    | dict es =>
      have hents := entries_not_hasDictList hnd
      rcases findCandidate_empty hents candidateKeys with hfc | hfc <;>
        simp only [extract_records, hfc]
      exact lastResort_empty hents
    | none => rfl
    | bool b => rfl
    | int n => rfl
    | float q => rfl
    | str s => rfl

/-- Witness for C5: the head-is-a-mapping part at a concrete payload and
the empty-result part at a dict-list-free payload. -/
theorem claim_C5_witness :
    (PyVal.dict [("a", PyVal.int 1)]).isDict = true ∧
    extract_records (.dict [("note", .str "x"), ("n", .int 3)]) = [] :=
  ⟨(claim_C5 (.dict [("rows", .list [.dict [("a", PyVal.int 1)]])])).1
      (.dict [("a", PyVal.int 1)]) [] rfl,
    (claim_C5 (.dict [("note", .str "x"), ("n", .int 3)])).2 (by
      intro h
      cases h with
      | dictNest k v hv hd =>
        cases hv with
        | head => cases hd
        | tail _ hv2 =>
          cases hv2 with
          | head => cases hd
          | tail _ hv3 => cases hv3)⟩
